import Mathlib

/-!
Shallow embedding of the submarine backend (src/backend/agents.py and
src/backend/main.py).  Python floats are modelled as exact rationals;
Python string helpers (strip, lower, title, join, splitlines, split) are
modelled by structural recursions over the character list so that every
definition evaluates inside the kernel.
-/

namespace Submarine

set_option maxRecDepth 8000

/-- Python built-in round with no digits: round half to even. -/
def pythonRound (q : ℚ) : ℤ :=
  let f := ⌊q⌋
  let frac := q - (f : ℚ)
  if frac < 1/2 then f
  else if 1/2 < frac then f + 1
  else if f % 2 = 0 then f else f + 1

/-- Python modulo on floats: `x % m = x - m * floor (x / m)`, the result carries the
sign of the divisor. -/
def pymod (x m : ℚ) : ℚ := x - m * (⌊x / m⌋ : ℤ)

/-- Python format spec ".0f": round half to even to an integer; a negative value that
rounds to zero prints as "-0". -/
def fmtF0 (q : ℚ) : String :=
  if q < 0 ∧ pythonRound q = 0 then "-0" else toString (pythonRound q)

/-- Python format spec ".1f": round half to even at one decimal place. -/
def fmtF1 (q : ℚ) : String :=
  let n := pythonRound (10 * q)
  let sign := if n < 0 ∨ (n = 0 ∧ q < 0) then "-" else ""
  sign ++ toString (n.natAbs / 10) ++ "." ++ toString (n.natAbs % 10)

/-- ASCII whitespace stripped by Python str.strip(). -/
def pyIsSpace (c : Char) : Bool :=
  c == ' ' || c == '\t' || c == '\n' || c == '\r' || c == '\x0b' || c == '\x0c'

/-- Python str.strip(): drop whitespace from both ends. -/
def pyStrip (s : String) : String :=
  String.mk (((s.data.dropWhile pyIsSpace).reverse.dropWhile pyIsSpace).reverse)

/-- Python str.lower() on the ASCII text used by this program. -/
def pyLower (s : String) : String := String.mk (s.data.map Char.toLower)

/-- Helper for pyTitle: the Bool records whether the previous character was a letter. -/
def pyTitleAux : List Char → Bool → List Char
  | [], _ => []
  | c :: cs, prevAlpha =>
    (if c.isAlpha then (if prevAlpha then c.toLower else c.toUpper) else c) ::
      pyTitleAux cs c.isAlpha

/-- Python str.title(): uppercase each letter that follows a non-letter, lowercase the
rest. -/
def pyTitle (s : String) : String := String.mk (pyTitleAux s.data false)

/-- Python sep.join(parts). -/
def pyJoin (sep : String) : List String → String
  | [] => ""
  | a :: rest => rest.foldl (fun acc x => acc ++ sep ++ x) a

/-- Helper for pySplitlines: accumulate the current line in reverse. -/
def pySplitlinesAux : List Char → List Char → List String
  | [], acc => if acc.isEmpty then [] else [String.mk acc.reverse]
  | c :: cs, acc =>
    if c == '\n' then String.mk acc.reverse :: pySplitlinesAux cs []
    else pySplitlinesAux cs (c :: acc)

/-- Python str.splitlines() restricted to the "\n" boundaries this program produces:
a trailing newline does not open an empty final line and "" has no lines. -/
def pySplitlines (s : String) : List String := pySplitlinesAux s.data []

/-- Python transcript.split(".")[0]: the text up to the first period. -/
def firstPeriodSegment (s : String) : String :=
  String.mk (s.data.takeWhile (fun c => c != '.'))

/-- format_heading from src/backend/agents.py: wrap the heading into [0, 360) with the
double Python modulo, index the 8 compass points by round(wrapped / 45) % 8, and
render "{wrapped:.0f}° {label}".  The index is always below 8, so the getD default
is never used. -/
def formatHeading : Option ℚ → String
  | none => "steady course"
  | some heading =>
    let wrapped := pymod (pymod heading 360 + 360) 360
    let headings : List String := ["N", "NE", "E", "SE", "S", "SW", "W", "NW"]
    let label := headings.getD ((pythonRound (wrapped / 45)) % 8).toNat "N"
    fmtF0 wrapped ++ "° " ++ label

/-- format_drift from src/backend/agents.py. -/
def formatDrift : Option ℚ → String
  | none => "centerline"
  | some drift =>
    let magnitude := |drift|
    if magnitude < 1 then "centerline"
    else fmtF0 magnitude ++ " pt " ++ (if 0 < drift then "starboard" else "port")

/-- format_efficiency from src/backend/agents.py. -/
def formatEfficiency : Option ℚ → String
  | none => ""
  | some efficiency => "Efficiency " ++ fmtF0 (efficiency * 100) ++ "%"

/-- Round half up, as the spec (§4.1) words the compass rounding. -/
def roundHalfUp (q : ℚ) : ℤ := ⌊q + 1/2⌋

/-- Modelled from the spec (§4.1) for comparison with formatHeading: normalize into
[0, 360) by modulo, pick the compass label by round-half-up on degrees/45, render
"{deg:.0f}° {COMPASS}". -/
def specFormatHeadingRoundHalfUp : Option ℚ → String
  | none => "steady course"
  | some heading =>
    let wrapped := heading - 360 * (⌊heading / 360⌋ : ℤ)
    let headings : List String := ["N", "NE", "E", "SE", "S", "SW", "W", "NW"]
    let label := headings.getD ((roundHalfUp (wrapped / 45)) % 8).toNat "N"
    fmtF0 wrapped ++ "° " ++ label

/-- The spec sentence for formatHeading amended to the rounding the code uses: the
compass label comes from Python round, which is round half to even. -/
def specFormatHeadingHalfEven : Option ℚ → String
  | none => "steady course"
  | some heading =>
    let wrapped := heading - 360 * (⌊heading / 360⌋ : ℤ)
    let headings : List String := ["N", "NE", "E", "SE", "S", "SW", "W", "NW"]
    let label := headings.getD ((pythonRound (wrapped / 45)) % 8).toNat "N"
    fmtF0 wrapped ++ "° " ++ label

/-- CrewMemberPayload from src/backend/main.py. -/
structure CrewMemberPayload where
  id : String
  name : String
  role : String
  alliances : List String := []
  instructions : Option String := some ""
deriving DecidableEq

/-- MilestonePayload from src/backend/main.py. -/
structure MilestonePayload where
  id : String
  label : String
  description : String
deriving DecidableEq

/-- RoutePayload from src/backend/main.py. -/
structure RoutePayload where
  id : String
  name : String
  cable : String
deriving DecidableEq

/-- TelemetryPayload from src/backend/main.py. -/
structure TelemetryPayload where
  progress : ℚ := 0
  heading_deg : Option ℚ := none
  drift : Option ℚ := none
  fuel_percentage : Option ℚ := none
  stress_percentage : Option ℚ := none
deriving DecidableEq

/-- CrewMetricsPayload from src/backend/main.py. -/
structure CrewMetricsPayload where
  stress : Option ℚ := none
  fatigue : Option ℚ := none
  efficiency : Option ℚ := none
deriving DecidableEq

/-- CrewThoughtRequest from src/backend/main.py. -/
structure CrewThoughtRequest where
  crew_member : CrewMemberPayload
  milestone : MilestonePayload
  route : RoutePayload
  elapsed_minutes : ℚ := 0
  telemetry : TelemetryPayload := {}
  crew_metrics : Option CrewMetricsPayload := none
deriving DecidableEq

/-- One conversation entry, the dict {"role": ..., "content": ...} built by
AgentOrchestrator.run; both keys are always present there. -/
structure ConvEntry where
  role : String
  content : String
deriving DecidableEq

/-- CrewThoughtResponse from src/backend/main.py. -/
structure CrewThoughtResponse where
  transcript : String
  chain_of_thought : List String
  provider : String := "agents-backend"
  conversation : List ConvEntry := []
  log_entry_id : Option String := none
deriving DecidableEq

/-- The telemetry sub-dict of the orchestration context built by _prepare_context. -/
structure TelemetryLabels where
  heading_label : String
  drift_label : String
  fuel_label : Option String
  stress : Option ℚ
deriving DecidableEq

/-- The orchestration context dict built by _prepare_context in src/backend/main.py. -/
structure Context where
  crew : CrewMemberPayload
  milestone : MilestonePayload
  route : RoutePayload
  elapsed_minutes : ℚ
  progress : ℚ
  telemetry : TelemetryLabels
  metrics : Option CrewMetricsPayload
  target_role : String
deriving DecidableEq

/-- clamp from src/backend/main.py. -/
def clamp (value minimum maximum : ℚ) : ℚ := max minimum (min maximum value)

/-- _prepare_context from src/backend/main.py: the target role key is the crew
member's id field. -/
def prepareContext (payload : CrewThoughtRequest) : Context :=
  let telemetry := payload.telemetry
  { crew := payload.crew_member
    milestone := payload.milestone
    route := payload.route
    elapsed_minutes := max 0 payload.elapsed_minutes
    progress := clamp telemetry.progress 0 1 * 100
    telemetry :=
      { heading_label := formatHeading telemetry.heading_deg
        drift_label := formatDrift telemetry.drift
        fuel_label := telemetry.fuel_percentage.map (fun f => fmtF1 f ++ "% fuel")
        stress := telemetry.stress_percentage }
    metrics := payload.crew_metrics
    target_role := payload.crew_member.id }

/-- AgentDefinition from src/backend/agents.py. -/
structure AgentDefinition where
  role : String
  name : String
  instructions : String
  prompt_template : String
  model : Option String := none
  temperature : Option ℚ := none
deriving DecidableEq

/-- AGENT_DEFINITIONS from src/backend/agents.py, as the association list underlying
the Python dict (insertion order preserved). -/
def AGENT_DEFINITIONS : List (String × AgentDefinition) :=
  [ ("navigator",
     { role := "navigator"
       name := "Navigation Watch Officer"
       model := some "gpt-4.1-mini"
       instructions := "You are the navigation liaison for a submarine threading subsea cable corridors. Emphasise headings, cardinal directions, depth bands, and cross-track drift when advising the bridge. Provide concise bullet points that describe how to steer relative to the plotted line."
       prompt_template := "Detail two bullet points covering helm adjustments and hazard avoidance using cardinal language. Finish with one sentence that issues a navigation recommendation." }),
    ("intel",
     { role := "intel"
       name := "Intelligence Analyst"
       model := some "gpt-4.1-mini"
       instructions := "You fuse sensor, satellite, and maritime traffic intelligence. Speak to how contacts or hydrography influence safe headings in cardinal terms. Reference coordination with other teams."
       prompt_template := "Provide two short bullets describing the sensor picture and recommended observation arcs, then close with a sentence that briefs the bridge on monitoring priorities." }),
    ("engineer",
     { role := "engineer"
       name := "Engineering Watch Supervisor"
       model := some "gpt-4.1-mini"
       instructions := "You monitor propulsion, ballast, and reactor loads. Note how engineering settings support the requested heading and drift corrections. Coordinate with navigation and operations for stability."
       prompt_template := "Share two bullets on machinery posture and ballast trim, followed by one sentence that confirms propulsion readiness for the specified course." }),
    ("operations",
     { role := "operations"
       name := "Operations Coordinator"
       model := some "gpt-4.1-mini"
       instructions := "You synchronise crew rotations and readiness. Emphasise how communications with the bridge and engineering keep the vessel on the plotted line."
       prompt_template := "Produce two bullets highlighting crew coordination tied to the current heading and drift, and finish with a sentence assigning next check-in responsibilities." }),
    ("captain",
     { role := "captain"
       name := "Commanding Officer"
       model := some "gpt-4.1-mini"
       instructions := "You arbitrate the final manoeuvre. Synthesize prior officer inputs and judge risk relative to the cardinal course."
       prompt_template := "Deliver two short assessments covering risk and mission priority, then issue a single-sentence command decision that names the heading to hold." }) ]

/-- SUPPORT_SEQUENCE from src/backend/agents.py. -/
def SUPPORT_SEQUENCE : List String :=
  ["navigator", "intel", "engineer", "operations", "captain"]

/-- AgentOrchestrator._build_sequence: drop the target role from the support order,
then append it at the end. -/
def buildSequence (target_role : String) : List String :=
  (SUPPORT_SEQUENCE.filter (fun role => role != target_role)) ++ [target_role]

/-- The default template _compose_prompt uses for a role with no AGENT_DEFINITIONS
entry. -/
def genericTemplate : String :=
  "Summarise the situation in two bullet points and close with a directive sentence that references the present heading."

/-- The persona-override template _compose_prompt substitutes when the role equals
the context's target role. -/
def personaTemplate (crew : CrewMemberPayload) : String :=
  "Speak as " ++ crew.name ++ " (" ++ crew.role ++ "). Provide two crisp bullets describing your reasoning and finish with a directive sentence for the crew that cites the heading to steer."

/-- The template selection at the end of _compose_prompt: look the role up in
AGENT_DEFINITIONS (falling back to the generic template), then override with the
persona template when the role is the target role. -/
def templateFor (role : String) (context : Context) : String :=
  let template :=
    match List.lookup role AGENT_DEFINITIONS with
    | some definition => definition.prompt_template
    | none => genericTemplate
  if role = context.target_role then personaTemplate context.crew else template

/-- The summary block plus prior-inputs block of _compose_prompt, everything before
the role template in the returned f-string "{summary}\n{conversation}\n{template}". -/
def promptPrelude (context : Context) (prior_responses : List ConvEntry) : String :=
  let milestone := context.milestone
  let route := context.route
  let telemetry := context.telemetry
  let summary_lines : List String :=
    [ "Mission: " ++ route.name ++ " (" ++ route.cable ++ ").",
      "Milestone: " ++ milestone.label ++ " — " ++ milestone.description,
      "Elapsed: " ++ fmtF1 context.elapsed_minutes ++ " min · Progress " ++
        fmtF0 context.progress ++ "% complete",
      "Heading " ++ telemetry.heading_label ++ " with " ++ telemetry.drift_label ++
        " drift" ]
  let summary_lines := summary_lines ++
    (match telemetry.fuel_label with
     | some fuel => if fuel != "" then ["Fuel reserves " ++ fuel] else []
     | none => [])
  let summary_lines := summary_lines ++
    (match context.metrics with
     | none => []
     | some metrics =>
       let detail := pyJoin ", "
         (([ formatEfficiency metrics.efficiency,
             (match metrics.stress with
              | some s => "Stress " ++ fmtF0 s ++ "%"
              | none => ""),
             (match metrics.fatigue with
              | some f => "Fatigue " ++ fmtF0 f ++ "%"
              | none => "") ]).filter (fun s => s != ""))
       if detail != "" then [detail] else [])
  let conversation :=
    if prior_responses.isEmpty then "\nNo prior agent inputs.\n"
    else
      "\nPrior inputs:\n" ++
        pyJoin "\n"
          (prior_responses.map (fun entry => pyTitle entry.role ++ ": " ++ entry.content)) ++
        "\n"
  pyJoin "\n" summary_lines ++ "\n" ++ conversation ++ "\n"

/-- AgentOrchestrator._compose_prompt from src/backend/agents.py. -/
def composePrompt (role : String) (context : Context)
    (prior_responses : List ConvEntry) : String :=
  promptPrelude context prior_responses ++ templateFor role context

/-- Outcome of one remote turn, abstracting the Assistants API round trip of
AgentOrchestrator.run: the terminal run status together with the text blocks of the
messages attached to that run (in emission order), or a transport-level error (the
OpenAIError branch). -/
inductive TurnResult where
  | completed (texts : List String)
  | failed (status : String)
  | transport
deriving DecidableEq

/-- The response-text extraction inside AgentOrchestrator.run: concatenate the
stripped text blocks separated by newlines, strip, and fall back to the placeholder
when empty. -/
def extractResponse (texts : List String) : String :=
  let response_text := texts.foldl (fun acc block => acc ++ (pyStrip block ++ "\n")) ""
  let stripped := pyStrip response_text
  if stripped = "" then "No directive provided." else stripped

/-- The sequential loop of AgentOrchestrator.run.  For each role: _ensure_assistant
raises KeyError when the role has no AGENT_DEFINITIONS entry (the assistant cache
can only ever hold roles that were looked up successfully before); otherwise compose
the prompt from the conversation so far and perform the remote turn, appending the
extracted response on success and aborting the whole run on any failure. -/
def runLoop (context : Context) (oracle : ℕ → String → TurnResult) :
    List String → ℕ → List ConvEntry → Except String (List ConvEntry)
  | [], _, conversation => Except.ok conversation
  | role :: rest, i, conversation =>
    match List.lookup role AGENT_DEFINITIONS with
    | none => Except.error ("KeyError: " ++ role)
    | some _ =>
      match oracle i (composePrompt role context conversation) with
      | TurnResult.completed texts =>
        runLoop context oracle rest (i + 1)
          (conversation ++ [{ role := role, content := extractResponse texts }])
      | TurnResult.failed status =>
        Except.error
          ("Agent \x27" ++ role ++ "\x27 did not complete (status=" ++ status ++ ").")
      | TurnResult.transport => Except.error "Agents SDK call failed"

/-- AgentOrchestrator.run from src/backend/agents.py.  `available` models
is_available() (the OpenAI SDK import plus the OPENAI_API_KEY variable); `oracle`
models the remote service, fed the step index and the composed prompt. -/
def run (available : Bool) (context : Context)
    (oracle : ℕ → String → TurnResult) : Except String (List ConvEntry) :=
  if available then runLoop context oracle (buildSequence context.target_role) 0 []
  else Except.error "OpenAI Agents SDK is not available"

/-- synthesise_fallback from src/backend/agents.py, combined with the
CrewThoughtResponse(**fallback) construction of the endpoint: conversation and
log_entry_id keep their field defaults. -/
def synthesiseFallback (context : Context) : CrewThoughtResponse :=
  let heading := context.telemetry.heading_label
  let drift := context.telemetry.drift_label
  let crew := context.crew
  let milestone := context.milestone
  { transcript :=
      crew.name ++ ": Maintain " ++ pyLower heading ++ " and hold the line through " ++
        pyLower milestone.label ++ ". Report if drift grows beyond safe margins."
    chain_of_thought :=
      [ "Navigator notes heading " ++ heading ++ " with " ++ drift ++ ".",
        "Intel confirms corridor risks near " ++ milestone.label ++ ".",
        "Engineering keeps propulsion steady for cardinal adjustments." ]
    provider := "fallback" }

/-- The reasoning lines built by _build_response_from_conversation: every non-empty
stripped line of every entry, prefixed with the title-cased role.  Python's
splitlines never yields the trailing empty line, and empty lines are skipped either
way. -/
def thoughtLines (conversation : List ConvEntry) : List String :=
  (conversation.map (fun entry =>
    (((pySplitlines entry.content).map pyStrip).filter (fun cleaned => cleaned != "")).map
      (fun cleaned => pyTitle entry.role ++ ": " ++ cleaned))).flatten

/-- _build_response_from_conversation from src/backend/main.py: raises ValueError on
an empty conversation, otherwise assembles transcript, reasoning lines and the
passed-through conversation records. -/
def buildResponseFromConversation (conversation : List ConvEntry) :
    Except String CrewThoughtResponse :=
  match conversation with
  | [] => Except.error "Conversation was empty"
  | e :: rest =>
    Except.ok
      { transcript := ((e :: rest).getLast (List.cons_ne_nil e rest)).content
        chain_of_thought := thoughtLines (e :: rest)
        provider := "agents-backend"
        conversation := e :: rest }

/-- create_crew_thought from src/backend/main.py, up to the ship-log recording step
(_log_crew_thought only copies the response with a fresh log_entry_id, leaving
transcript, chain and provider unchanged; the store itself is modelled by
appendToLog below).  No code path constructs an HTTPException, so the re-raise arm
is unreachable and every other exception falls back. -/
def createCrewThought (available : Bool) (oracle : ℕ → String → TurnResult)
    (payload : CrewThoughtRequest) : CrewThoughtResponse :=
  let context := prepareContext payload
  if available then
    match run available context oracle with
    | Except.ok conversation =>
      match buildResponseFromConversation conversation with
      | Except.ok response => response
      | Except.error _ => synthesiseFallback context
    | Except.error _ => synthesiseFallback context
  else synthesiseFallback context

/-- ShipLogEntryResponse from src/backend/main.py.  The free-form metadata map
(`Dict[str, Any]` in the source) carries arbitrary JSON and is not inspected by any
store or narrator operation, so it is not modelled. -/
structure ShipLogEntryResponse where
  id : String
  timestamp : String
  type : String
  author : String
  role : Option String := none
  transcript : String
  chain_of_thought : List String := []
  provider : Option String := none
  conversation : List ConvEntry := []
deriving DecidableEq

/-- _MAX_LOG_ENTRIES from src/backend/main.py. -/
def MAX_LOG_ENTRIES : ℕ := 2000

/-- The store mutation inside _record_ship_log_entry: append the record, then delete
from the front until the size is back at the cap. -/
def appendToLog (entries : List ShipLogEntryResponse)
    (record : ShipLogEntryResponse) : List ShipLogEntryResponse :=
  let appended := entries ++ [record]
  if MAX_LOG_ENTRIES < appended.length then
    appended.drop (appended.length - MAX_LOG_ENTRIES)
  else appended

/-- _format_duration from src/backend/main.py, on a whole number of seconds. -/
def formatDuration (total_seconds : ℤ) : Option String :=
  if total_seconds ≤ 0 then none
  else
    let t := total_seconds.toNat
    let hours := t / 3600
    let minutes := (t % 3600) / 60
    let parts : List String :=
      (if hours ≠ 0 then
        [toString hours ++ " hour" ++ (if hours ≠ 1 then "s" else "")] else []) ++
      (if minutes ≠ 0 then
        [toString minutes ++ " minute" ++ (if minutes ≠ 1 then "s" else "")] else [])
    let parts := if parts.isEmpty then ["moments"] else parts
    some (pyJoin " and " parts)

/-- Stable insertion for the timestamp sort: an entry coming from the left of the
original list stays in front of later entries with an equal key, matching Python's
stable sorted(). -/
def insertByTimestamp (e : ShipLogEntryResponse) :
    List ShipLogEntryResponse → List ShipLogEntryResponse
  | [] => [e]
  | x :: xs =>
    if x.timestamp < e.timestamp then x :: insertByTimestamp e xs else e :: x :: xs

/-- sorted(entries, key=timestamp) from _build_ship_log_story: stable ascending sort
by the timestamp string (Python compares the ISO strings lexicographically). -/
def sortByTimestamp (entries : List ShipLogEntryResponse) :
    List ShipLogEntryResponse :=
  entries.foldr insertByTimestamp []

/-- _build_ship_log_story from src/backend/main.py.  `parseTs` models
_parse_timestamp composed with the epoch-seconds view of the parsed datetime (the
difference of two parsed datetimes, as int(total_seconds()), is the difference of
these integers); None stands for an unparseable timestamp. -/
def buildShipLogStory (parseTs : String → Option ℤ)
    (entries : List ShipLogEntryResponse) : String :=
  if entries.isEmpty then "No ship log entries were recorded for this voyage."
  else
    let ordered := sortByTimestamp entries
    let duration_label : Option String :=
      match ordered.head?.bind (fun e => parseTs e.timestamp),
            ordered.getLast?.bind (fun e => parseTs e.timestamp) with
      | some start_time, some end_time => formatDuration (end_time - start_time)
      | _, _ => none
    let total_entries := entries.length
    let system_events := ordered.filter (fun e => e.type == "system")
    let reflection_events := ordered.filter (fun e => e.type == "reflection")
    let crew_updates := ordered.filter (fun e => e.type == "crew" || e.type == "reflection")
    let opening :=
      if total_entries ≠ 1 then
        "The ship\x27s log captures " ++ toString total_entries ++ " coordinated updates"
      else "The ship\x27s log captures a single coordinated update"
    let opening :=
      match duration_label with
      | some d => opening ++ " across " ++ d ++ "."
      | none => opening ++ "."
    let paragraphs : List String := [opening]
    let paragraphs := paragraphs ++
      (if system_events.isEmpty then []
       else
         [ "Mission waypoints and alerts were marked by the control team: " ++
             pyJoin ", " ((system_events.take 3).map
               (fun event => firstPeriodSegment event.transcript)) ++ "." ])
    let paragraphs := paragraphs ++
      (if reflection_events.isEmpty then []
       else
         [ "Crew reflections surfaced on a steady cadence, allowing every department to voice morale and emotional posture as the voyage advanced." ])
    let paragraphs := paragraphs ++
      (match crew_updates.getLast? with
       | none => []
       | some final_update =>
         [ "The journey closed with " ++ final_update.author ++ "\x27s words: \"" ++
             pyStrip final_update.transcript ++ "\"" ])
    pyJoin "\n\n" paragraphs

/-- Concrete request fixture: a crew member whose id is not one of the five fixed
role keys. -/
def samplePayload : CrewThoughtRequest :=
  { crew_member :=
      { id := "sonar-chief"
        name := "Priya Raman"
        role := "Sonar Chief" }
    milestone := { id := "m1", label := "Corridor Entry", description := "Enter the corridor." }
    route := { id := "r1", name := "Pacific Crossing", cable := "TPC-5" }
    elapsed_minutes := 5 }

/-- Concrete context fixture whose target role is the fixed role "captain". -/
def sampleContext : Context :=
  { crew := { id := "captain", name := "Mara Chen", role := "Commanding Officer" }
    milestone := { id := "m1", label := "Corridor Entry", description := "Enter the corridor." }
    route := { id := "r1", name := "Pacific Crossing", cable := "TPC-5" }
    elapsed_minutes := 12
    progress := 40
    telemetry :=
      { heading_label := "47° NE", drift_label := "2 pt port", fuel_label := none,
        stress := none }
    metrics := none
    target_role := "captain" }

/-- Remote oracle that completes every turn with one fixed text block. -/
def oracleOk : ℕ → String → TurnResult :=
  fun _ _ => TurnResult.completed ["Hold course."]

/-- Remote oracle that fails every turn with a transport error. -/
def oracleFail : ℕ → String → TurnResult := fun _ _ => TurnResult.transport

/-- The conversation a fully successful run over sampleContext produces. -/
def sampleConv : List ConvEntry :=
  [ { role := "navigator", content := "Hold course." },
    { role := "intel", content := "Hold course." },
    { role := "engineer", content := "Hold course." },
    { role := "operations", content := "Hold course." },
    { role := "captain", content := "Hold course." } ]

/-- Ship log entry fixture of type "crew". -/
def crewEntry : ShipLogEntryResponse :=
  { id := "log-1"
    timestamp := "2026-01-01T00:00:00Z"
    type := "crew"
    author := "Priya Raman"
    role := some "Sonar Chief"
    transcript := "Hold the line. All quiet."
    provider := some "fallback" }

/-- Ship log entry fixture with every field blank, for capacity counting. -/
def blankEntry : ShipLogEntryResponse :=
  { id := "", timestamp := "", type := "system", author := "", transcript := "" }

lemma pymod_period (x : ℚ) (k : ℤ) : pymod (x + 360 * (k : ℚ)) 360 = pymod x 360 := by
  unfold pymod
  have hdiv : (x + 360 * (k : ℚ)) / 360 = x / 360 + (k : ℚ) := by
    field_simp
    ring
  rw [hdiv, Int.floor_add_int]
  push_cast
  ring

lemma pymod_nonneg (x : ℚ) : 0 ≤ pymod x 360 := by
  unfold pymod
  have h := Int.floor_le (x / 360)
  linarith

lemma pymod_lt (x : ℚ) : pymod x 360 < 360 := by
  unfold pymod
  have h := Int.lt_floor_add_one (x / 360)
  linarith

lemma pymod_fixed (x : ℚ) (h0 : 0 ≤ x) (h1 : x < 360) : pymod x 360 = x := by
  unfold pymod
  have hfl : ⌊x / 360⌋ = 0 := by
    rw [Int.floor_eq_zero_iff, Set.mem_Ico]
    constructor
    · positivity
    · rw [div_lt_one (by norm_num)]
      exact h1
  rw [hfl]
  simp

lemma pymod_wrap (x : ℚ) : pymod (pymod x 360 + 360) 360 = pymod x 360 := by
  have h1 : pymod (pymod x 360 + 360) 360 = pymod (pymod x 360) 360 := by
    have h := pymod_period (pymod x 360) 1
    simpa using h
  rw [h1, pymod_fixed _ (pymod_nonneg x) (pymod_lt x)]

/-- C7: formatHeading is invariant under adding any integer multiple of 360 to the
heading, both in its numeric part and its compass label, so negative and >360 inputs
wrap to the same string. -/
theorem format_heading_periodic (d : ℚ) (k : ℤ) :
    formatHeading (some (d + 360 * (k : ℚ))) = formatHeading (some d) := by
  simp only [formatHeading]
  rw [pymod_period]

/-- C5 counterexample: the code rounds the compass index with Python round, which is
round half to even, not round half up; at the boundary input 22.5 the spec's
round-half-up formatter yields "22° NE" while format_heading yields "22° N". -/
theorem heading_half_up_counterexample :
    specFormatHeadingRoundHalfUp (some (45/2)) = "22° NE" ∧
    formatHeading (some (45/2)) = "22° N" ∧
    specFormatHeadingRoundHalfUp (some (45/2)) ≠ formatHeading (some (45/2)) := by
  refine ⟨?_, ?_, ?_⟩ <;> with_unfolding_all decide

/-- C5 (amended): formatHeading normalizes the heading into [0, 360) by modulo and
renders "{deg:.0f}° {COMPASS}", but picks the compass label among the 8 points by
round-half-to-even (Python round) on degrees/45, so the boundary input 22.5 rounds
down to N. -/
theorem format_heading_half_even :
    (∀ h : Option ℚ, formatHeading h = specFormatHeadingHalfEven h) ∧
    (∀ d : ℚ, 0 ≤ pymod d 360 ∧ pymod d 360 < 360) ∧
    formatHeading (some (45/2)) = "22° N" := by
  refine ⟨?_, fun d => ⟨pymod_nonneg d, pymod_lt d⟩, by with_unfolding_all decide⟩
  intro h
  cases h with
  | none => rfl
  | some d =>
    simp only [formatHeading, specFormatHeadingHalfEven]
    rw [pymod_wrap]
    rfl

/-- C8: formatDrift returns "centerline" when the value is absent or its magnitude
is below 1, and otherwise "{|value|:.0f} pt {side}" with starboard for positive and
port for negative values; in particular 0.5, -3 and 4 map to "centerline",
"3 pt port" and "4 pt starboard". -/
theorem format_drift_cases :
    formatDrift none = "centerline" ∧
    (∀ d : ℚ, |d| < 1 → formatDrift (some d) = "centerline") ∧
    (∀ d : ℚ, 1 ≤ |d| → 0 < d → formatDrift (some d) = fmtF0 |d| ++ " pt " ++ "starboard") ∧
    (∀ d : ℚ, 1 ≤ |d| → d < 0 → formatDrift (some d) = fmtF0 |d| ++ " pt " ++ "port") ∧
    formatDrift (some (1/2)) = "centerline" ∧
    formatDrift (some (-3)) = "3 pt port" ∧
    formatDrift (some 4) = "4 pt starboard" := by
  refine ⟨rfl, ?_, ?_, ?_, by with_unfolding_all decide, by with_unfolding_all decide,
    by with_unfolding_all decide⟩
  · intro d hd
    simp only [formatDrift]
    rw [if_pos hd]
  · intro d h1 hpos
    simp only [formatDrift]
    rw [if_neg (not_lt.mpr h1), if_pos hpos]
  · intro d h1 hneg
    simp only [formatDrift]
    rw [if_neg (not_lt.mpr h1), if_neg (not_lt.mpr hneg.le)]

/-- C8 witness: the three guarded cases of format_drift_cases evaluated at the
spec's own example inputs 0.5, 4 and -3. -/
theorem format_drift_cases_check :
    (|(1/2 : ℚ)| < 1 ∧ formatDrift (some (1/2 : ℚ)) = "centerline") ∧
    (1 ≤ |(4 : ℚ)| ∧ 0 < (4 : ℚ) ∧
      formatDrift (some (4 : ℚ)) = fmtF0 |(4 : ℚ)| ++ " pt " ++ "starboard") ∧
    (1 ≤ |(-3 : ℚ)| ∧ (-3 : ℚ) < 0 ∧
      formatDrift (some (-3 : ℚ)) = fmtF0 |(-3 : ℚ)| ++ " pt " ++ "port") := by
  have h1 : |(1/2 : ℚ)| < 1 := by with_unfolding_all decide
  have h2 : (1 : ℚ) ≤ |(4 : ℚ)| := by with_unfolding_all decide
  have h3 : (0 : ℚ) < 4 := by with_unfolding_all decide
  have h4 : (1 : ℚ) ≤ |(-3 : ℚ)| := by with_unfolding_all decide
  have h5 : (-3 : ℚ) < 0 := by with_unfolding_all decide
  exact ⟨⟨h1, format_drift_cases.2.1 _ h1⟩, ⟨h2, h3, format_drift_cases.2.2.1 _ h2 h3⟩,
    ⟨h4, h5, format_drift_cases.2.2.2.1 _ h4 h5⟩⟩

lemma mem_support_of_lookup (r : String)
    (h : (List.lookup r AGENT_DEFINITIONS).isSome = true) : r ∈ SUPPORT_SEQUENCE := by
  by_cases h1 : r = "navigator"
  · simp [SUPPORT_SEQUENCE, h1]
  by_cases h2 : r = "intel"
  · simp [SUPPORT_SEQUENCE, h2]
  by_cases h3 : r = "engineer"
  · simp [SUPPORT_SEQUENCE, h3]
  by_cases h4 : r = "operations"
  · simp [SUPPORT_SEQUENCE, h4]
  by_cases h5 : r = "captain"
  · simp [SUPPORT_SEQUENCE, h5]
  exfalso
  have e1 : (r == "navigator") = false := beq_eq_false_iff_ne.mpr h1
  have e2 : (r == "intel") = false := beq_eq_false_iff_ne.mpr h2
  have e3 : (r == "engineer") = false := beq_eq_false_iff_ne.mpr h3
  have e4 : (r == "operations") = false := beq_eq_false_iff_ne.mpr h4
  have e5 : (r == "captain") = false := beq_eq_false_iff_ne.mpr h5
  simp [AGENT_DEFINITIONS, List.lookup, e1, e2, e3, e4, e5] at h

lemma extractResponse_ne_empty (texts : List String) : extractResponse texts ≠ "" := by
  simp only [extractResponse]
  split
  · decide
  · next hne => exact hne

lemma runLoop_ok_spec (context : Context) (oracle : ℕ → String → TurnResult) :
    ∀ (seq : List String) (i : ℕ) (acc out : List ConvEntry),
      runLoop context oracle seq i acc = Except.ok out →
      out.map (fun e => e.role) = acc.map (fun e => e.role) ++ seq ∧
      (∀ r ∈ seq, (List.lookup r AGENT_DEFINITIONS).isSome = true) ∧
      ((∀ e ∈ acc, e.content ≠ "") → ∀ e ∈ out, e.content ≠ "") := by
  intro seq
  induction seq with
  | nil =>
    intro i acc out h
    simp only [runLoop] at h
    injection h with h
    subst h
    exact ⟨by simp, fun r hr => absurd hr (List.not_mem_nil r), fun hacc => hacc⟩
  | cons r rest ih =>
    intro i acc out h
    simp only [runLoop] at h
    split at h
    · exact (Except.noConfusion h)
    · next d hlk =>
      split at h
      · next texts horc =>
        obtain ⟨hmap, hlks, hcontents⟩ :=
          ih (i + 1) (acc ++ [{ role := r, content := extractResponse texts }]) out h
        refine ⟨?_, ?_, ?_⟩
        · rw [hmap]
          simp
        · intro x hx
          cases hx with
          | head => simp [hlk]
          | tail _ hx => exact hlks x hx
        · intro hacc e he
          refine hcontents ?_ e he
          intro e2 he2
          rcases List.mem_append.mp he2 with h2 | h2
          · exact hacc e2 h2
          · have he2eq : e2 = { role := r, content := extractResponse texts } :=
              List.mem_singleton.mp h2
            rw [he2eq]
            exact extractResponse_ne_empty texts
      · exact (Except.noConfusion h)
      · exact (Except.noConfusion h)

lemma run_ok_spec (available : Bool) (context : Context)
    (oracle : ℕ → String → TurnResult) (conv : List ConvEntry)
    (h : run available context oracle = Except.ok conv) :
    conv.map (fun e => e.role) = buildSequence context.target_role ∧
    (∀ r ∈ buildSequence context.target_role,
      (List.lookup r AGENT_DEFINITIONS).isSome = true) ∧
    (∀ e ∈ conv, e.content ≠ "") := by
  unfold run at h
  split at h
  · obtain ⟨hmap, hlks, hcont⟩ := runLoop_ok_spec context oracle _ 0 [] conv h
    refine ⟨by simpa using hmap, hlks, hcont ?_⟩
    intro e he
    cases he
  · exact (Except.noConfusion h)

/-- C1: for every context, a completed Sequencer run yields a conversation of length
exactly 5 whose last entry's role is the requested target role and in which each of
the five fixed roles appears exactly once.  (A target role outside the five fixed
keys can never complete: its step raises KeyError in _ensure_assistant.) -/
theorem sequencer_completed_shape (context : Context)
    (oracle : ℕ → String → TurnResult) (conv : List ConvEntry)
    (h : run true context oracle = Except.ok conv) :
    conv.length = 5 ∧
    (conv.map (fun e => e.role)).getLast? = some context.target_role ∧
    (∀ r ∈ SUPPORT_SEQUENCE, (conv.map (fun e => e.role)).count r = 1) := by
  obtain ⟨hmap, hlks, -⟩ := run_ok_spec true context oracle conv h
  have htarget : context.target_role ∈ SUPPORT_SEQUENCE := by
    apply mem_support_of_lookup
    apply hlks
    simp [buildSequence]
  have hlen : conv.length = (conv.map (fun e => e.role)).length :=
    (List.length_map conv _).symm
  simp only [SUPPORT_SEQUENCE, List.mem_cons, List.mem_singleton,
    List.not_mem_nil, or_false] at htarget
  rcases htarget with h5 | h5 | h5 | h5 | h5 <;>
    (rw [h5] at hmap
     exact ⟨by rw [hlen, hmap]; decide, by rw [hmap, h5]; decide, by rw [hmap]; decide⟩)

/-- C1 witness: a concrete successful run with target role "captain" over five
completed turns. -/
theorem sequencer_completed_shape_check :
    run true sampleContext oracleOk = Except.ok sampleConv ∧
    (sampleConv.length = 5 ∧
      (sampleConv.map (fun e => e.role)).getLast? = some sampleContext.target_role ∧
      (∀ r ∈ SUPPORT_SEQUENCE, (sampleConv.map (fun e => e.role)).count r = 1)) := by
  have hrun : run true sampleContext oracleOk = Except.ok sampleConv := by
    with_unfolding_all rfl
  exact ⟨hrun, sequencer_completed_shape sampleContext oracleOk sampleConv hrun⟩

lemma append_right_empty {a b : String} (h : a ++ b = "") : b = "" := by
  have hdata := congrArg String.data h
  rw [String.data_append] at hdata
  have hb : b.data = [] := (List.append_eq_nil.mp hdata).2
  cases b with
  | mk l =>
    simp only at hb
    rw [hb]

lemma fallback_transcript_ne (context : Context) :
    (synthesiseFallback context).transcript ≠ "" := by
  intro hcontra
  simp only [synthesiseFallback] at hcontra
  have hfinal := append_right_empty hcontra
  exact absurd hfinal (by decide)

/-- C3: when isAvailable() is false the crew-thought endpoint returns the fallback
response: its provider tag is "fallback" and its reasoning chain has exactly 3
lines. -/
theorem unavailable_fallback (oracle : ℕ → String → TurnResult)
    (payload : CrewThoughtRequest) :
    createCrewThought false oracle payload = synthesiseFallback (prepareContext payload) ∧
    (createCrewThought false oracle payload).provider = "fallback" ∧
    (createCrewThought false oracle payload).chain_of_thought.length = 3 :=
  ⟨rfl, rfl, rfl⟩

/-- C2: if any sequence step fails, the run aborts and the endpoint returns the
fallback result with an empty conversation record (no partial conversation is
surfaced) and the fallback provider tag; and for every availability, oracle and
payload the endpoint returns a non-empty transcript, never surfacing a
remote-service error. -/
theorem step_failure_falls_back :
    (∀ (payload : CrewThoughtRequest) (oracle : ℕ → String → TurnResult) (err : String),
      run true (prepareContext payload) oracle = Except.error err →
      createCrewThought true oracle payload = synthesiseFallback (prepareContext payload) ∧
      (createCrewThought true oracle payload).conversation = [] ∧
      (createCrewThought true oracle payload).provider = "fallback") ∧
    (∀ (available : Bool) (oracle : ℕ → String → TurnResult)
      (payload : CrewThoughtRequest),
      (createCrewThought available oracle payload).transcript ≠ "") := by
  constructor
  · intro payload oracle err herr
    have hcc : createCrewThought true oracle payload =
        synthesiseFallback (prepareContext payload) := by
      simp [createCrewThought, herr]
    exact ⟨hcc, by rw [hcc]; rfl, by rw [hcc]; rfl⟩
  · intro available oracle payload
    cases available with
    | false =>
      show (synthesiseFallback (prepareContext payload)).transcript ≠ ""
      exact fallback_transcript_ne _
    | true =>
      cases hrun : run true (prepareContext payload) oracle with
      | error e =>
        have hcc : createCrewThought true oracle payload =
            synthesiseFallback (prepareContext payload) := by
          simp [createCrewThought, hrun]
        rw [hcc]
        exact fallback_transcript_ne _
      | ok conv =>
        obtain ⟨hmap, hlks, hcont⟩ := run_ok_spec true (prepareContext payload) oracle conv hrun
        cases conv with
        | nil =>
          exfalso
          simp [buildSequence] at hmap
        | cons e rest =>
          have hcc : createCrewThought true oracle payload =
              { transcript := ((e :: rest).getLast (List.cons_ne_nil e rest)).content
                chain_of_thought := thoughtLines (e :: rest)
                provider := "agents-backend"
                conversation := e :: rest } := by
            simp [createCrewThought, hrun, buildResponseFromConversation]
          rw [hcc]
          exact hcont _ (List.getLast_mem _)

/-- C2 witness: a concrete transport failure on the first step falls back; the
fallback response carries no conversation and the fallback provider, and the
transcript is non-empty. -/
theorem step_failure_falls_back_check :
    run true (prepareContext samplePayload) oracleFail =
      Except.error "Agents SDK call failed" ∧
    createCrewThought true oracleFail samplePayload =
      synthesiseFallback (prepareContext samplePayload) ∧
    (createCrewThought true oracleFail samplePayload).conversation = [] ∧
    (createCrewThought true oracleFail samplePayload).provider = "fallback" ∧
    (createCrewThought true oracleFail samplePayload).transcript ≠ "" := by
  have hrun : run true (prepareContext samplePayload) oracleFail =
      Except.error "Agents SDK call failed" := by
    with_unfolding_all rfl
  obtain ⟨h1, h2, h3⟩ := step_failure_falls_back.1 samplePayload oracleFail _ hrun
  exact ⟨hrun, h1, h2, h3, step_failure_falls_back.2 true oracleFail samplePayload⟩

/-- C6: invoking the ResponseAssembler on an empty conversation is a fatal contract
violation (it returns the ValueError, never a silent recovery value), and it is
unreachable from the Sequencer: every successfully completed run produces a
non-empty conversation. -/
theorem empty_conversation_fatal :
    buildResponseFromConversation ([] : List ConvEntry) =
      Except.error "Conversation was empty" ∧
    (∀ (available : Bool) (context : Context) (oracle : ℕ → String → TurnResult)
      (conv : List ConvEntry),
      run available context oracle = Except.ok conv → conv ≠ []) := by
  refine ⟨rfl, ?_⟩
  intro available context oracle conv h hnil
  obtain ⟨hmap, -, -⟩ := run_ok_spec available context oracle conv h
  rw [hnil] at hmap
  simp [buildSequence] at hmap

/-- C6 witness: a concrete completed run yields a non-empty conversation while the
assembler rejects the empty one. -/
theorem empty_conversation_fatal_check :
    buildResponseFromConversation ([] : List ConvEntry) =
      Except.error "Conversation was empty" ∧
    run true sampleContext oracleOk = Except.ok sampleConv ∧ sampleConv ≠ [] := by
  have hrun : run true sampleContext oracleOk = Except.ok sampleConv := by
    with_unfolding_all rfl
  exact ⟨empty_conversation_fatal.1, hrun,
    empty_conversation_fatal.2 true sampleContext oracleOk sampleConv hrun⟩

lemma foldl_appendToLog (es : List ShipLogEntryResponse) :
    List.foldl appendToLog [] es = es.drop (es.length - MAX_LOG_ENTRIES) := by
  induction es using List.reverseRecOn with
  | nil => simp
  | append_singleton es e ih =>
    rw [List.foldl_append, List.foldl_cons, List.foldl_nil, ih]
    by_cases hsmall : es.length + 1 ≤ MAX_LOG_ENTRIES
    · have h1 : es.length - MAX_LOG_ENTRIES = 0 := by omega
      have h2 : (es ++ [e]).length - MAX_LOG_ENTRIES = 0 := by
        simp only [List.length_append, List.length_cons, List.length_nil]
        omega
      simp only [appendToLog, h1, h2, List.drop_zero, ite_self]
    · have hge : MAX_LOG_ENTRIES ≤ es.length := by omega
      have hcap : 0 < MAX_LOG_ENTRIES := by decide
      have hdlen : (es.drop (es.length - MAX_LOG_ENTRIES)).length = MAX_LOG_ENTRIES := by
        rw [List.length_drop]
        omega
      have hlt : MAX_LOG_ENTRIES < (es.drop (es.length - MAX_LOG_ENTRIES) ++ [e]).length := by
        simp only [List.length_append, List.length_cons, List.length_nil, hdlen]
        omega
      simp only [appendToLog, if_pos hlt]
      have hlen1 : (es.drop (es.length - MAX_LOG_ENTRIES) ++ [e]).length - MAX_LOG_ENTRIES = 1 := by
        simp only [List.length_append, List.length_cons, List.length_nil, hdlen]
        omega
      have hlen2 : (es ++ [e]).length - MAX_LOG_ENTRIES = es.length + 1 - MAX_LOG_ENTRIES := by
        simp only [List.length_append, List.length_cons, List.length_nil]
      have hone : (1 : Nat) ≤ (es.drop (es.length - MAX_LOG_ENTRIES)).length := by
        rw [hdlen]
        exact hcap
      have htwo : es.length + 1 - MAX_LOG_ENTRIES ≤ es.length := by omega
      rw [hlen1, hlen2]
      rw [List.drop_append_of_le_length hone]
      rw [List.drop_append_of_le_length htwo]
      rw [List.drop_drop]
      have hidx : es.length - MAX_LOG_ENTRIES + 1 = es.length + 1 - MAX_LOG_ENTRIES := by omega
      rw [hidx]

/-- C4: the ship log never exceeds the 2000-entry cap (an in-cap log stays in cap
after an append), and appending 2001 entries to an empty log leaves exactly the
2000 most recently appended entries in their original relative order, the oldest
entry being dropped from the front. -/
theorem ship_log_capacity_bound :
    (∀ (log : List ShipLogEntryResponse) (record : ShipLogEntryResponse),
      log.length ≤ MAX_LOG_ENTRIES → (appendToLog log record).length ≤ MAX_LOG_ENTRIES) ∧
    (∀ es : List ShipLogEntryResponse, es.length = 2001 →
      List.foldl appendToLog [] es = es.drop 1 ∧
      (List.foldl appendToLog [] es).length = 2000) := by
  constructor
  · intro log record hlog
    simp only [appendToLog]
    split
    · rw [List.length_drop]
      omega
    · next hnlt =>
      simp only [List.length_append, List.length_cons, List.length_nil] at hnlt ⊢
      omega
  · intro es hlen
    have h := foldl_appendToLog es
    rw [hlen] at h
    have hdrop : 2001 - MAX_LOG_ENTRIES = 1 := by
      simp only [MAX_LOG_ENTRIES]
    rw [hdrop] at h
    refine ⟨h, ?_⟩
    rw [h, List.length_drop, hlen]

/-- C4 witness: the cap bound applied to the empty log and the 2001-entry scenario
applied to 2001 copies of a blank entry. -/
theorem ship_log_capacity_bound_check :
    (([] : List ShipLogEntryResponse).length ≤ MAX_LOG_ENTRIES ∧
      (appendToLog [] blankEntry).length ≤ MAX_LOG_ENTRIES) ∧
    ((List.replicate 2001 blankEntry).length = 2001 ∧
      List.foldl appendToLog [] (List.replicate 2001 blankEntry) =
        (List.replicate 2001 blankEntry).drop 1 ∧
      (List.foldl appendToLog [] (List.replicate 2001 blankEntry)).length = 2000) := by
  have h0 : ([] : List ShipLogEntryResponse).length ≤ MAX_LOG_ENTRIES := by
    simp [MAX_LOG_ENTRIES]
  have h1 : (List.replicate 2001 blankEntry).length = 2001 := by
    simp
  obtain ⟨h2, h3⟩ := ship_log_capacity_bound.2 (List.replicate 2001 blankEntry) h1
  exact ⟨⟨h0, ship_log_capacity_bound.1 [] blankEntry h0⟩, ⟨h1, h2, h3⟩⟩

lemma pyJoin_pair (sep a b : String) : pyJoin sep [a, b] = a ++ sep ++ b := rfl

/-- C9: narrate on an empty entry list returns the fixed no-entries sentence, and on
a single entry of type "crew" produces a two-paragraph story that closes with a
quote of that entry's stripped transcript attributed to its author. -/
theorem narrate_empty_and_single_crew :
    (∀ parseTs : String → Option ℤ,
      buildShipLogStory parseTs [] = "No ship log entries were recorded for this voyage.") ∧
    (∀ (parseTs : String → Option ℤ) (e : ShipLogEntryResponse), e.type = "crew" →
      buildShipLogStory parseTs [e] =
        "The ship\x27s log captures a single coordinated update" ++ "." ++ "\n\n" ++
          ("The journey closed with " ++ e.author ++ "\x27s words: \"" ++
            pyStrip e.transcript ++ "\"")) := by
  constructor
  · intro parseTs
    rfl
  · intro parseTs e htype
    obtain ⟨eid, ets, ety, eau, ero, etr, ech, epr, eco⟩ := e
    simp only at htype
    subst htype
    cases hp : parseTs ets with
    | none =>
      simp [buildShipLogStory, sortByTimestamp, insertByTimestamp, hp, pyJoin_pair,
        String.append_assoc]
    | some t =>
      simp [buildShipLogStory, sortByTimestamp, insertByTimestamp, hp, formatDuration,
        pyJoin_pair, String.append_assoc]

/-- C9 witness: the no-entries sentence and the single-crew-entry story evaluated at
a concrete entry and an unparseable-timestamp parser. -/
theorem narrate_empty_and_single_crew_check :
    buildShipLogStory (fun _ => none) [] =
      "No ship log entries were recorded for this voyage." ∧
    crewEntry.type = "crew" ∧
    buildShipLogStory (fun _ => none) [crewEntry] =
      "The ship\x27s log captures a single coordinated update.\n\nThe journey closed with Priya Raman\x27s words: \"Hold the line. All quiet.\"" := by
  refine ⟨narrate_empty_and_single_crew.1 (fun _ => none), rfl, ?_⟩
  rw [narrate_empty_and_single_crew.2 (fun _ => none) crewEntry rfl]
  decide

/-- C10 (amended): the target role key placed in the orchestration context is the
crew member's id field, not its role field; when that id is not one of the five
fixed role keys the built sequence is the five support roles with the id appended,
six steps in all; but the extra role, being the target role, is composed with the
persona-override template, not the generic default template (the generic template
is selected for it and then replaced by the persona override). -/
theorem target_role_uses_id_and_persona (payload : CrewThoughtRequest) :
    (prepareContext payload).target_role = payload.crew_member.id ∧
    (payload.crew_member.id ∉ SUPPORT_SEQUENCE →
      buildSequence (prepareContext payload).target_role =
        SUPPORT_SEQUENCE ++ [payload.crew_member.id] ∧
      (buildSequence (prepareContext payload).target_role).length = 6) ∧
    (∀ (context : Context) (prior : List ConvEntry),
      composePrompt context.target_role context prior =
        promptPrelude context prior ++ personaTemplate context.crew) := by
  refine ⟨rfl, ?_, ?_⟩
  · intro hnot
    have hteq : (prepareContext payload).target_role = payload.crew_member.id := rfl
    have hfix : SUPPORT_SEQUENCE.filter (fun role => role != payload.crew_member.id) =
        SUPPORT_SEQUENCE := by
      rw [List.filter_eq_self]
      intro a ha
      rw [bne_iff_ne]
      intro heq
      exact hnot (heq ▸ ha)
    constructor
    · rw [hteq]
      simp only [buildSequence, hfix]
    · rw [hteq]
      simp only [buildSequence, hfix]
      rfl
  · intro context prior
    simp only [composePrompt, templateFor, eq_self_iff_true, if_true]

/-- C10 counterexample: for the concrete crew member with id "sonar-chief" (not a
fixed role key) the target-role step's prompt ends with the persona-override
template and differs from the prompt that the generic default template would
produce; so the claim's final clause, that the extra role is composed with the
generic default template, is false. -/
theorem target_generic_template_counterexample :
    samplePayload.crew_member.id ∉ SUPPORT_SEQUENCE ∧
    buildSequence (prepareContext samplePayload).target_role =
      SUPPORT_SEQUENCE ++ ["sonar-chief"] ∧
    composePrompt (prepareContext samplePayload).target_role
        (prepareContext samplePayload) [] =
      promptPrelude (prepareContext samplePayload) [] ++
        personaTemplate samplePayload.crew_member ∧
    composePrompt (prepareContext samplePayload).target_role
        (prepareContext samplePayload) [] ≠
      promptPrelude (prepareContext samplePayload) [] ++ genericTemplate := by
  refine ⟨by decide, ?_, ?_, ?_⟩ <;> with_unfolding_all decide

/-- C10 witness: the amended statement applied at the concrete payload whose crew id
"sonar-chief" is not a fixed role key, and at a concrete context and empty prior
list for the persona-override clause. -/
theorem target_role_uses_id_and_persona_check :
    samplePayload.crew_member.id ∉ SUPPORT_SEQUENCE ∧
    (prepareContext samplePayload).target_role = samplePayload.crew_member.id ∧
    buildSequence (prepareContext samplePayload).target_role =
      SUPPORT_SEQUENCE ++ [samplePayload.crew_member.id] ∧
    (buildSequence (prepareContext samplePayload).target_role).length = 6 ∧
    composePrompt sampleContext.target_role sampleContext [] =
      promptPrelude sampleContext [] ++ personaTemplate sampleContext.crew := by
  have hnot : samplePayload.crew_member.id ∉ SUPPORT_SEQUENCE := by decide
  obtain ⟨h1, h2⟩ := (target_role_uses_id_and_persona samplePayload).2.1 hnot
  exact ⟨hnot, (target_role_uses_id_and_persona samplePayload).1, h1, h2,
    (target_role_uses_id_and_persona samplePayload).2.2 sampleContext []⟩

end Submarine
